import Mathlib

/-!
Shallow embedding of the UnityMCP sidecar gateway (`tools/sidecar.py`).

The sidecar is an HTTP proxy between a client and a Unity editor backend:
it discovers backend instances on ports 8081-8090 (`check_unity_health`),
forwards JSON-RPC requests with a retry loop (`forward_with_retry`),
answers window-focus actions locally (`handle_focus_action`), and serves a
`/status` document (`SidecarHandler.do_GET` / `do_POST`).

Network calls, OS window-manager calls and the wall clock are modelled as
explicit parameters: a reachability predicate on ports for one probing
cycle, a `WinEnv` record for the Win32 calls a single handler invocation
performs, and an integer-seconds timestamp passed to every refresh.
-/

/-- JSON values appearing in the sidecar-built result dictionaries
(`handle_focus_action` only ever stores booleans and strings). -/
inductive JVal where
  | b (v : Bool)
  | s (v : String)
deriving DecidableEq, Repr

/-- The `arguments` object of a `tools/call` request, with the two keys the
sidecar reads (`args.get("action", "")`, `params.get("enabled", False)`). -/
structure Args where
  action : Option String := none
  enabled : Option Bool := none
deriving DecidableEq, Repr

/-- The `params` object of a parsed JSON-RPC request. -/
structure Params where
  name : Option String := none
  arguments : Option Args := none
deriving DecidableEq, Repr

/-- A JSON-RPC id: string or number (`parsed.get("id", "?")` defaults to the
string `"?"`). -/
inductive RpcId where
  | s (v : String)
  | n (v : Int)
deriving DecidableEq, Repr

/-- A successfully parsed inbound JSON-RPC request, with the fields
`do_POST` and `is_focus_action` read. -/
structure ParsedRequest where
  id : Option RpcId := none
  method : Option String := none
  params : Option Params := none
deriving DecidableEq, Repr

/-- Platforms, as distinguished by `sys.platform == "win32"`. -/
inductive Platform where
  | win32
  | other
deriving DecidableEq, Repr

/-- Results of the Win32 calls one `handle_focus_action` invocation makes:
`GetForegroundWindow()`, `_find_unity_hwnd()` (0 when no window is found),
and `SetForegroundWindow` / `_set_foreground_with_attach` on a given hwnd. -/
structure WinEnv where
  foregroundWindow : Nat
  unityHwnd : Nat
  setFg : Nat → Bool

/-- The persisted settings file `.sidecar_settings.json`: a JSON object
whose values are booleans (`{"auto_focus": bool}`); `none` models a missing
or unparseable file. -/
abbrev SettingsFile := List (String × Bool)

/-- Sidecar focus-related mutable state: `_previous_foreground_window`,
`_auto_focus_enabled`, and the on-disk settings file. -/
structure FocusState where
  prevWindow : Nat := 0
  autoFocus : Bool := false
  settingsFile : Option SettingsFile := none
deriving Repr

/-- Embeds `_save_settings`: rewrite the settings file with the current
auto-focus flag (`json.dump({"auto_focus": _auto_focus_enabled}, f)`). -/
def save_settings (autoFocus : Bool) : SettingsFile :=
  [("auto_focus", autoFocus)]

/-- Embeds `_load_settings`: read `settings.get("auto_focus", False)` from
the file; on a missing or corrupt file the current value is kept (`pass`). -/
def load_settings (file : Option SettingsFile) (current : Bool) : Bool :=
  match file with
  | some settings => (settings.lookup "auto_focus").getD false
  | none => current

/-- State of a freshly started sidecar process: module globals
(`_previous_foreground_window = 0`, `_auto_focus_enabled = False`) followed
by the `_load_settings()` call in `main`. -/
def startupState (file : Option SettingsFile) : FocusState :=
  { prevWindow := 0, autoFocus := load_settings file false, settingsFile := file }

/-- Focus actions the sidecar handles directly (`FOCUS_ACTIONS`). -/
def FOCUS_ACTIONS : List String :=
  ["focus", "restore_focus", "set_auto_focus", "get_settings"]

/-- Embeds `handle_focus_action(action, params)`: returns the result
dictionary (`none` when the action is not a focus action) and the updated
focus state. -/
def handle_focus_action (platform : Platform) (env : WinEnv) (st : FocusState)
    (action : String) (params : Args) : Option (List (String × JVal)) × FocusState :=
  if platform ≠ Platform.win32 then
    (some [("success", JVal.b false),
           ("error", JVal.s "Window focus management is only supported on Windows.")], st)
  else if action = "focus" then
    let prev := env.foregroundWindow
    let st1 := { st with prevWindow := prev }
    if env.unityHwnd = 0 then
      (some [("success", JVal.b false),
             ("error", JVal.s "Could not find Unity Editor window. Is Unity running?")], st1)
    else
      let focused := env.setFg env.unityHwnd
      (some [("success", JVal.b true),
             ("focused", JVal.b focused),
             ("previous_window_saved", JVal.b (prev != 0)),
             ("handled_by", JVal.s "sidecar"),
             ("message", JVal.s (if focused then
                 "Unity Editor focused. Use \x27restore_focus\x27 to return to previous window."
               else
                 "Focus request sent but may not have succeeded (Windows restrictions)."))],
       st1)
  else if action = "restore_focus" then
    if st.prevWindow = 0 then
      (some [("success", JVal.b false),
             ("error",
              JVal.s "No previous window saved. Call \x27focus\x27 first to save the previous window.")],
       st)
    else
      let restored := env.setFg st.prevWindow
      (some [("success", JVal.b true),
             ("restored", JVal.b restored),
             ("handled_by", JVal.s "sidecar"),
             ("message", JVal.s (if restored then
                 "Focus restored to previous window."
               else
                 "Restore request sent but may not have succeeded (Windows restrictions)."))],
       { st with prevWindow := 0 })
  else if action = "set_auto_focus" then
    let enabled := params.enabled.getD false
    let st1 := { st with autoFocus := enabled, settingsFile := some (save_settings enabled) }
    (some [("success", JVal.b true),
           ("auto_focus", JVal.b enabled),
           ("handled_by", JVal.s "sidecar"),
           ("message", JVal.s (if enabled then
               "Auto-focus enabled. Unity will be focused automatically when needed."
             else
               "Auto-focus disabled."))],
     st1)
  else if action = "get_settings" then
    (some [("success", JVal.b true),
           ("auto_focus", JVal.b st.autoFocus),
           ("has_previous_window", JVal.b (st.prevWindow != 0)),
           ("platform", JVal.s "windows"),
           ("handled_by", JVal.s "sidecar")],
     st)
  else (none, st)

/-- Embeds `is_focus_action(parsed_request)`: `some (action, args)` stands
for Python's `(True, action, args)`, `none` for `(False, None, None)`. -/
def is_focus_action (req : ParsedRequest) : Option (String × Args) :=
  if req.method != some "tools/call" then none
  else
    let params := req.params.getD {}
    if params.name != some "manage_editor" then none
    else
      let args := params.arguments.getD {}
      let action := args.action.getD ""
      if FOCUS_ACTIONS.contains action then some (action, args) else none

example :
    is_focus_action { method := some "tools/call",
                      params := some { name := some "manage_editor",
                                       arguments := some { action := some "focus" } } }
      = some ("focus", { action := some "focus" }) := by decide

example :
    is_focus_action { method := some "tools/call",
                      params := some { name := some "manage_editor",
                                       arguments := some { action := some "play" } } }
      = none := by decide

/-- One discovered backend instance, the value part of an entry of the
`unity_instances` dict: `{"connected": bool, "label": str}`. -/
structure UnityInstance where
  connected : Bool
  label : String
deriving DecidableEq, Repr

/-- `HEALTH_CHECK_INTERVAL = 5` seconds between Unity health checks.
Timestamps are modelled as integer seconds. -/
def HEALTH_CHECK_INTERVAL : Int := 5

/-- `RETRY_INTERVAL = 1` second between retries when Unity is down. -/
def RETRY_INTERVAL : Nat := 1

/-- `MAX_RETRIES = 30` attempts before giving up on a request. -/
def MAX_RETRIES : Nat := 30

/-- `DISCOVERY_PORTS = range(8081, 8091)`: the scanned candidate ports. -/
def DISCOVERY_PORTS : List Nat := (List.range 10).map (fun i => 8081 + i)

/-- The label expression of `check_unity_health`:
`"Host" if port == 8081 else f"Clone \x7bport - 8081 - 1\x7d"`. -/
def labelFor (port : Nat) : String :=
  if port == 8081 then "Host" else "Clone " ++ toString (port - 8081 - 1)

/-- The registry's mutable globals: `unity_port`, `unity_connected`,
`last_unity_check` and the `unity_instances` map (an association list in
insertion order, as a Python dict preserves it). -/
structure RegistryState where
  unity_port : Nat
  unity_connected : Bool
  last_unity_check : Int
  unity_instances : List (Nat × UnityInstance)
deriving DecidableEq, Repr

/-- The `connected` value computed for a scanned port:
`_ping_port(port) if port != unity_port else primary_alive` (where
`primary_alive = _ping_port(unity_port)`, so the reuse branch is written
out as in the source). -/
def effConnected (s : RegistryState) (reach : Nat → Bool) (port : Nat) : Bool :=
  if port == s.unity_port then reach s.unity_port else reach port

/-- The membership test of the discovery loop:
`if connected or port in unity_instances`. -/
def portKept (s : RegistryState) (reach : Nat → Bool) (port : Nat) : Bool :=
  effConnected s reach port || s.unity_instances.any (fun pi => pi.1 == port)

/-- The `new_instances` dict built by the discovery loop over
`DISCOVERY_PORTS`, before the primary-port fallback. -/
def refreshBase (s : RegistryState) (reach : Nat → Bool) : List (Nat × UnityInstance) :=
  DISCOVERY_PORTS.filterMap (fun port =>
    if portKept s reach port then
      some (port, UnityInstance.mk (effConnected s reach port) (labelFor port))
    else none)

/-- The final `new_instances` dict of one probing cycle: the discovery
loop's result, with the primary port appended (labelled `"Host"`) when the
loop did not include it. -/
def refreshInstances (s : RegistryState) (reach : Nat → Bool) : List (Nat × UnityInstance) :=
  if (refreshBase s reach).any (fun pi => pi.1 == s.unity_port) then refreshBase s reach
  else refreshBase s reach ++ [(s.unity_port, UnityInstance.mk (reach s.unity_port) "Host")]

/-- Number of `_ping_port` calls one probing cycle performs: one for the
primary plus one per discovery port other than the primary. -/
def numProbes (s : RegistryState) : Nat :=
  1 + (DISCOVERY_PORTS.filter (fun port => port != s.unity_port)).length

/-- Embeds `check_unity_health()`. `reach` gives the result `_ping_port`
would return for each port during this cycle, `now` is `time.time()`.
Returns the updated globals, the function's return value
(`unity_connected`), and the number of `_ping_port` calls performed. -/
def check_unity_health (s : RegistryState) (now : Int) (reach : Nat → Bool) :
    RegistryState × Bool × Nat :=
  if now - s.last_unity_check < HEALTH_CHECK_INTERVAL then
    (s, s.unity_connected, 0)
  else
    ({ s with unity_connected := reach s.unity_port,
              last_unity_check := now,
              unity_instances := refreshInstances s reach },
     reach s.unity_port, numProbes s)

/-- Ports of the registry entries, in insertion order. -/
def instKeys (l : List (Nat × UnityInstance)) : List Nat := l.map Prod.fst

/-- A registry as it stands right after a probing cycle completed at time
0 with no instance discovered and primary port 8081. -/
def reg0 : RegistryState :=
  { unity_port := 8081, unity_connected := false, last_unity_check := 0,
    unity_instances := [] }

example :
    (check_unity_health reg0 10 (fun p => p == 8081 || p == 8082)).1.unity_instances
      = [(8081, ⟨true, "Host"⟩), (8082, ⟨true, "Clone 0"⟩)] := by decide

/-- Exception classes relevant to `forward_with_retry`: the retried tuple
`(urllib.error.URLError, ConnectionRefusedError, OSError)` versus any other
exception. -/
inductive ErrKind where
  | urlError
  | connectionRefused
  | osError
  | otherException
deriving DecidableEq, Repr

/-- An exception raised by a forwarding attempt. -/
structure Err where
  kind : ErrKind
  msg : String
deriving DecidableEq, Repr

/-- Whether an exception class is caught by the retrying `except` clause of
`forward_with_retry`. -/
def retryable (k : ErrKind) : Bool :=
  match k with
  | .otherException => false
  | _ => true

/-- The outcome of one `forward_to_unity` call: the response bytes, or a
raised exception. -/
inductive AttemptOutcome where
  | success (body : String)
  | failure (e : Err)

/-- Result of a `forward_with_retry` call: the returned response bytes, or
the exception it raises. -/
inductive FwdResult where
  | ok (body : String)
  | raised (e : Err)
deriving DecidableEq, Repr

/-- Observable behaviour of one `forward_with_retry` run: its result
(returned body or raised exception), the number of `forward_to_unity`
attempts performed, and the total seconds spent in `time.sleep`. -/
structure RunTrace where
  result : FwdResult
  attempts : Nat
  sleeps : Nat
deriving DecidableEq, Repr

/-- The exception raised when the loop exhausts with no recorded error:
`Exception("Unity unreachable after max retries")`. -/
def maxRetriesError : Err := ⟨.otherException, "Unity unreachable after max retries"⟩

/-- The retry loop of `forward_with_retry`, with `fuel` remaining
iterations, `attempt` attempts already made, `sleeps` seconds already
slept, and the recorded `last_error`. -/
def fwrLoop (f : Nat → AttemptOutcome) :
    Nat → Nat → Nat → Option Err → RunTrace
  | 0, attempt, sleeps, lastError =>
      ⟨.raised (lastError.getD maxRetriesError), attempt, sleeps⟩
  | fuel + 1, attempt, sleeps, _lastError =>
      match f attempt with
      | .success body => ⟨.ok body, attempt + 1, sleeps⟩
      | .failure e =>
          if retryable e.kind then
            fwrLoop f fuel (attempt + 1) (sleeps + RETRY_INTERVAL) (some e)
          else ⟨.raised e, attempt + 1, sleeps⟩

/-- Embeds `forward_with_retry(body_bytes, request_id)`; `f` gives the
outcome `forward_to_unity` would produce on each attempt. -/
def forward_with_retry (f : Nat → AttemptOutcome) : RunTrace :=
  fwrLoop f MAX_RETRIES 0 0 none

example :
    forward_with_retry (fun j => if j < 3 then .failure ⟨.connectionRefused, "r"⟩
                                 else .success "pong")
      = ⟨.ok "pong", 4, 3⟩ := by decide

example :
    (forward_with_retry (fun _ => .failure ⟨.osError, "down"⟩)).attempts = 30 := by decide

/-- The body of an HTTP response written by the sidecar's POST handler. -/
inductive PostBody where
  | localEnv (result : List (String × JVal))
  | rawBody (body : String)
  | errorEnvelope (code : Int) (message : String)
deriving DecidableEq

/-- An HTTP response written by the sidecar's POST handler: transport
status, JSON-RPC body and the `id` echoed in the envelope. -/
structure PostResponse where
  status : Nat
  body : PostBody
  id : RpcId
deriving DecidableEq

/-- Embeds `SidecarHandler.do_POST`. `parsed` is the result of
`json.loads` on the request body (`none` on parse failure), `port` the
global `unity_port`, `f` the per-attempt forwarding outcomes. Returns the
response written, the updated focus state, and the number of forwarding
attempts made against the backend. -/
def do_POST (platform : Platform) (env : WinEnv) (st : FocusState) (port : Nat)
    (f : Nat → AttemptOutcome) (parsed : Option ParsedRequest) :
    PostResponse × FocusState × Nat :=
  let request_id :=
    match parsed with
    | some req => req.id.getD (RpcId.s "?")
    | none => RpcId.s "?"
  let forwardPath : PostResponse × FocusState × Nat :=
    let t := forward_with_retry f
    match t.result with
    | .ok body => (⟨200, .rawBody body, request_id⟩, st, t.attempts)
    | .raised _ =>
        (⟨200,
          .errorEnvelope (-32000)
            ("Unity not reachable on port " ++ toString port ++
             ". Is Unity running with Unixxty MCP active?"),
          request_id⟩, st, t.attempts)
  match parsed with
  | some req =>
      match is_focus_action req with
      | some (action, args) =>
          match handle_focus_action platform env st action args with
          | (some result, st1) => (⟨200, .localEnv result, request_id⟩, st1, 0)
          | (none, _) => forwardPath
      | none => forwardPath
  | none => forwardPath

/-- Insertion step of the key-ordered sort modelling Python's
`sorted(unity_instances.items())` (keys are the distinct ports). -/
def insertByKey (x : Nat × UnityInstance) :
    List (Nat × UnityInstance) → List (Nat × UnityInstance)
  | [] => [x]
  | y :: ys => if x.1 ≤ y.1 then x :: y :: ys else y :: insertByKey x ys

/-- Key-ordered insertion sort modelling `sorted(unity_instances.items())`. -/
def sortByKey : List (Nat × UnityInstance) → List (Nat × UnityInstance)
  | [] => []
  | x :: xs => insertByKey x (sortByKey xs)

/-- One entry of the `instances` array of the `/status` document:
`{"port": port, "connected": ..., "label": ...}`. -/
structure StatusInstance where
  port : Nat
  connected : Bool
  label : String
deriving DecidableEq, Repr

/-- The `/status` JSON document built by `do_GET`. -/
structure StatusDoc where
  sidecar : String
  unity_connected : Bool
  unity_port : Nat
  auto_focus : Bool
  instances : List StatusInstance
deriving DecidableEq, Repr

/-- The `instances` array of the status document: the registry entries
sorted by port. -/
def snapshotInstances (l : List (Nat × UnityInstance)) : List StatusInstance :=
  (sortByKey l).map (fun pi => ⟨pi.1, pi.2.connected, pi.2.label⟩)

/-- Embeds `SidecarHandler.do_GET`: on `/status`, refresh the registry and
return 200 with the status document; otherwise 404. Returns the HTTP
status, the document (when any), and the updated registry state. -/
def do_GET (path : String) (s : RegistryState) (now : Int) (reach : Nat → Bool)
    (autoFocus : Bool) : (Nat × Option StatusDoc) × RegistryState :=
  if path = "/status" then
    let s1 := (check_unity_health s now reach).1
    ((200,
      some ⟨"running", s1.unity_connected, s1.unity_port, autoFocus,
            snapshotInstances s1.unity_instances⟩),
     s1)
  else ((404, none), s)

example :
    (do_GET "/status" reg0 10 (fun p => p == 8082) false).1
      = (200, some ⟨"running", false, 8081, false,
                    [⟨8081, false, "Host"⟩, ⟨8082, true, "Clone 0"⟩]⟩) := by decide

/-- Result dictionary returned by every focus action on a non-Windows
platform. -/
def unsupportedPlatformResult : List (String × JVal) :=
  [("success", JVal.b false),
   ("error", JVal.s "Window focus management is only supported on Windows.")]

/-- Result dictionary of `restore_focus` when no previous window is saved. -/
def noPriorCaptureResult : List (String × JVal) :=
  [("success", JVal.b false),
   ("error",
    JVal.s "No previous window saved. Call \x27focus\x27 first to save the previous window.")]

/-- Result dictionary of `focus` when the Unity window is not found. -/
def unityNotFoundResult : List (String × JVal) :=
  [("success", JVal.b false),
   ("error", JVal.s "Could not find Unity Editor window. Is Unity running?")]

/-- C10: on Windows, a `focus` request saves the caller's foreground window
before searching for the Unity window, so even a `focus` that fails with
the target-not-found error has overwritten the previously saved restore
target. -/
theorem c10_focus_overwrites_previous_window
    (fg : Nat) (sf : Nat → Bool) (st : FocusState) (a : Args) :
    handle_focus_action .win32 ⟨fg, 0, sf⟩ st "focus" a
      = (some unityNotFoundResult, { st with prevWindow := fg })
    ∧ ∀ env : WinEnv,
        (handle_focus_action .win32 env st "focus" a).2
          = { st with prevWindow := env.foregroundWindow } := by
  constructor
  · simp [handle_focus_action, unityNotFoundResult]
  · intro env
    by_cases h : env.unityHwnd = 0 <;> simp [handle_focus_action, h]

/-- C6: on Windows, `restore_focus` with no saved reference fails with the
no-prior-capture error; after a `focus` call (whose capture is a nonzero
window handle), the first `restore_focus` succeeds, restoring the saved
window and clearing the reference, and a second `restore_focus` fails with
the same no-prior-capture error. -/
theorem c6_restore_focus_one_shot
    (envA envB envC : WinEnv) (st : FocusState) (a1 a2 a3 a4 : Args)
    (hfg : envA.foregroundWindow ≠ 0) :
    (handle_focus_action .win32 envB { st with prevWindow := 0 } "restore_focus" a1).1
      = some noPriorCaptureResult
    ∧ (let st1 := (handle_focus_action .win32 envA st "focus" a2).2
       let out2 := handle_focus_action .win32 envB st1 "restore_focus" a3
       let out3 := handle_focus_action .win32 envC out2.2 "restore_focus" a4
       st1.prevWindow = envA.foregroundWindow
       ∧ out2.1 = some [("success", JVal.b true),
                        ("restored", JVal.b (envB.setFg envA.foregroundWindow)),
                        ("handled_by", JVal.s "sidecar"),
                        ("message", JVal.s (if envB.setFg envA.foregroundWindow then
                            "Focus restored to previous window."
                          else
                            "Restore request sent but may not have succeeded (Windows restrictions)."))]
       ∧ out2.2.prevWindow = 0
       ∧ out3.1 = some noPriorCaptureResult) := by
  have hst1 : (handle_focus_action .win32 envA st "focus" a2).2
      = { st with prevWindow := envA.foregroundWindow } := by
    by_cases h : envA.unityHwnd = 0 <;> simp [handle_focus_action, h]
  refine ⟨?_, ?_, ?_, ?_, ?_⟩
  · simp [handle_focus_action, noPriorCaptureResult]
  · simp [hst1]
  · rw [hst1]; simp [handle_focus_action, hfg]
  · rw [hst1]; simp [handle_focus_action, hfg]
  · rw [hst1]; simp [handle_focus_action, hfg, noPriorCaptureResult]

/-- C6 witness: the one-shot restore behaviour at a concrete environment
(foreground window 7, Unity window 3). -/
theorem c6_restore_focus_one_shot_witness :
    (handle_focus_action .win32 ⟨7, 3, fun _ => true⟩
        { prevWindow := 0, autoFocus := false, settingsFile := none } "restore_focus" {}).1
      = some noPriorCaptureResult
    ∧ (let st1 := (handle_focus_action .win32 ⟨7, 3, fun _ => true⟩
                    { prevWindow := 0, autoFocus := false, settingsFile := none } "focus" {}).2
       let out2 := handle_focus_action .win32 ⟨7, 3, fun _ => true⟩ st1 "restore_focus" {}
       let out3 := handle_focus_action .win32 ⟨7, 3, fun _ => true⟩ out2.2 "restore_focus" {}
       st1.prevWindow = (7 : Nat)
       ∧ out2.1 = some [("success", JVal.b true),
                        ("restored", JVal.b true),
                        ("handled_by", JVal.s "sidecar"),
                        ("message", JVal.s "Focus restored to previous window.")]
       ∧ out2.2.prevWindow = 0
       ∧ out3.1 = some noPriorCaptureResult) := by
  have h := c6_restore_focus_one_shot ⟨7, 3, fun _ => true⟩ ⟨7, 3, fun _ => true⟩
    ⟨7, 3, fun _ => true⟩ { prevWindow := 0, autoFocus := false, settingsFile := none }
    {} {} {} {} (by decide)
  simpa using h

/-- C9: setting the auto-focus preference to `v` rewrites the settings file
with `v` and echoes `v`; a restarted process that reloads the persisted
settings file reports preference `v` from `get_settings`. -/
theorem c9_auto_focus_persistence_roundtrip
    (v : Bool) (envA envB : WinEnv) (st : FocusState) (a1 a2 : Args) :
    let out := handle_focus_action .win32 envA st "set_auto_focus" { a1 with enabled := some v }
    out.1 = some [("success", JVal.b true),
                  ("auto_focus", JVal.b v),
                  ("handled_by", JVal.s "sidecar"),
                  ("message", JVal.s (if v then
                      "Auto-focus enabled. Unity will be focused automatically when needed."
                    else "Auto-focus disabled."))]
    ∧ out.2.settingsFile = some [("auto_focus", v)]
    ∧ out.2.autoFocus = v
    ∧ (startupState out.2.settingsFile).autoFocus = v
    ∧ (handle_focus_action .win32 envB (startupState out.2.settingsFile) "get_settings" a2).1
        = some [("success", JVal.b true),
                ("auto_focus", JVal.b v),
                ("has_previous_window", JVal.b false),
                ("platform", JVal.s "windows"),
                ("handled_by", JVal.s "sidecar")] := by
  refine ⟨?_, ?_, ?_, ?_, ?_⟩ <;>
    simp [handle_focus_action, startupState, load_settings, save_settings]

/-- C4: a POST that parses as a `tools/call` of `manage_editor` with an
action in `FOCUS_ACTIONS` is answered entirely locally: the response is a
200 envelope wrapping the handler's result dictionary, zero forwarding
attempts are made against the backend, and on a non-Windows platform the
result is uniformly the unsupported-platform error. -/
theorem handle_focus_action_total (platform : Platform) (env : WinEnv) (st : FocusState)
    (a : String) (args : Args) (ha : a ∈ FOCUS_ACTIONS) :
    ∃ r st1, handle_focus_action platform env st a args = (some r, st1)
      ∧ (platform ≠ Platform.win32 → r = unsupportedPlatformResult) := by
  cases platform with
  | other =>
    exact ⟨unsupportedPlatformResult, st,
      by simp [handle_focus_action, unsupportedPlatformResult], fun _ => rfl⟩
  | win32 =>
    have hsome : ((handle_focus_action .win32 env st a args).1).isSome := by
      simp only [FOCUS_ACTIONS, List.mem_cons, List.not_mem_nil, or_false] at ha
      rcases ha with rfl | rfl | rfl | rfl <;>
        · simp only [handle_focus_action]
          split_ifs <;> simp
    obtain ⟨r, hr⟩ := Option.isSome_iff_exists.mp hsome
    refine ⟨r, (handle_focus_action .win32 env st a args).2, ?_, fun hc => absurd rfl hc⟩
    rw [← hr]

/-- C4: a POST that parses as a `tools/call` of `manage_editor` with an
action in `FOCUS_ACTIONS` is answered entirely locally: the response is a
200 envelope wrapping the handler's result dictionary, zero forwarding
attempts are made against the backend, and on a non-Windows platform the
result is uniformly the unsupported-platform error. -/
theorem c4_local_actions_answered_without_backend
    (platform : Platform) (env : WinEnv) (st : FocusState) (port : Nat)
    (f : Nat → AttemptOutcome) (req : ParsedRequest)
    (hm : req.method = some "tools/call")
    (hn : (req.params.getD {}).name = some "manage_editor")
    (ha : ((req.params.getD {}).arguments.getD {}).action.getD "" ∈ FOCUS_ACTIONS) :
    ∃ result st1,
      do_POST platform env st port f (some req)
        = (⟨200, .localEnv result, req.id.getD (RpcId.s "?")⟩, st1, 0)
      ∧ (platform ≠ Platform.win32 → result = unsupportedPlatformResult) := by
  have hfa : is_focus_action req
      = some (((req.params.getD {}).arguments.getD {}).action.getD "",
              (req.params.getD {}).arguments.getD {}) := by
    have ha2 := ha
    simp only [FOCUS_ACTIONS, List.mem_cons, List.not_mem_nil, or_false] at ha2
    rcases ha2 with h | h | h | h <;>
      simp [is_focus_action, hm, hn, h, FOCUS_ACTIONS]
  obtain ⟨r, st1, hh, hr⟩ :=
    handle_focus_action_total platform env st _ ((req.params.getD {}).arguments.getD {}) ha
  refine ⟨r, st1, ?_, hr⟩
  simp [do_POST, hfa, hh]

/-- C4 witness: a concrete `get_settings` call on a non-Windows platform is
answered locally with the unsupported-platform error and zero forwarding
attempts. -/
theorem c4_local_actions_answered_without_backend_witness :
    ∃ result st1,
      do_POST .other ⟨7, 3, fun _ => true⟩
          { prevWindow := 0, autoFocus := false, settingsFile := none } 8081
          (fun _ => .failure ⟨.connectionRefused, "refused"⟩)
          (some { id := some (RpcId.n 1), method := some "tools/call",
                  params := some { name := some "manage_editor",
                                   arguments := some { action := some "get_settings" } } })
        = (⟨200, .localEnv result, RpcId.n 1⟩, st1, 0)
      ∧ (Platform.other ≠ Platform.win32 → result = unsupportedPlatformResult) :=
  c4_local_actions_answered_without_backend .other ⟨7, 3, fun _ => true⟩
    { prevWindow := 0, autoFocus := false, settingsFile := none } 8081
    (fun _ => .failure ⟨.connectionRefused, "refused"⟩)
    { id := some (RpcId.n 1), method := some "tools/call",
      params := some { name := some "manage_editor",
                       arguments := some { action := some "get_settings" } } }
    (by decide) (by decide) (by decide)

theorem fwrLoop_skip (f : Nat → AttemptOutcome) :
    ∀ (k fuel attempt sleeps : Nat) (last : Option Err),
      (∀ j, j < k → ∃ e, f (attempt + j) = .failure e ∧ retryable e.kind = true) →
      k ≤ fuel →
      ∃ last2, fwrLoop f fuel attempt sleeps last
        = fwrLoop f (fuel - k) (attempt + k) (sleeps + k * RETRY_INTERVAL) last2 := by
  intro k
  induction k with
  | zero => intro fuel attempt sleeps last _ _; exact ⟨last, by simp⟩
  | succ n ih =>
    intro fuel attempt sleeps last h hk
    obtain ⟨e, he, hre⟩ := h 0 (Nat.succ_pos n)
    rw [Nat.add_zero] at he
    match fuel, hk with
    | fuel2 + 1, _ =>
      have step : fwrLoop f (fuel2 + 1) attempt sleeps last
          = fwrLoop f fuel2 (attempt + 1) (sleeps + RETRY_INTERVAL) (some e) := by
        simp [fwrLoop, he, hre]
      obtain ⟨last2, hl⟩ := ih fuel2 (attempt + 1) (sleeps + RETRY_INTERVAL) (some e)
        (fun j hj => by
          obtain ⟨e2, h1, h2⟩ := h (j + 1) (by omega)
          exact ⟨e2, by rw [show attempt + 1 + j = attempt + (j + 1) by omega]; exact h1, h2⟩)
        (by omega)
      refine ⟨last2, ?_⟩
      rw [step, hl]
      have h1 : fuel2 - n = fuel2 + 1 - (n + 1) := by omega
      have h2 : attempt + 1 + n = attempt + (n + 1) := by omega
      have h3 : sleeps + RETRY_INTERVAL + n * RETRY_INTERVAL
          = sleeps + (n + 1) * RETRY_INTERVAL := by
        simp only [RETRY_INTERVAL]; omega
      rw [h1, h2, h3]

theorem fwrLoop_bounds (f : Nat → AttemptOutcome) :
    ∀ (fuel attempt sleeps : Nat) (last : Option Err),
      attempt ≤ (fwrLoop f fuel attempt sleeps last).attempts
      ∧ (0 < fuel → attempt + 1 ≤ (fwrLoop f fuel attempt sleeps last).attempts)
      ∧ sleeps ≤ (fwrLoop f fuel attempt sleeps last).sleeps := by
  intro fuel
  induction fuel with
  | zero => intro attempt sleeps last; simp [fwrLoop]
  | succ n ih =>
    intro attempt sleeps last
    rcases hf : f attempt with body | e
    · simp [fwrLoop, hf]
    · rcases hre : retryable e.kind with _ | _
      · simp [fwrLoop, hf, hre]
      · simp only [fwrLoop, hf, hre, if_true]
        obtain ⟨h1, h2, h3⟩ := ih (attempt + 1) (sleeps + RETRY_INTERVAL) (some e)
        refine ⟨by omega, fun _ => by omega, by omega⟩

/-- C2: starting from any attempt index reached through retryable
failures, an attempt that fails with an exception outside the transport
tuple (`URLError`, `ConnectionRefusedError`, `OSError`) is surfaced at
once — the run ends with exactly that exception and no further attempt or
sleep — while a failure inside the tuple is followed by a 1-second sleep
and, while attempts remain, a further attempt. -/
theorem c2_transport_failures_retried_others_terminal
    (f : Nat → AttemptOutcome) (k : Nat) (e : Err)
    (hk : k < MAX_RETRIES)
    (hprev : ∀ j, j < k → ∃ e2, f j = .failure e2 ∧ retryable e2.kind = true)
    (hke : f k = .failure e) :
    (retryable e.kind = false →
      forward_with_retry f = ⟨.raised e, k + 1, k * RETRY_INTERVAL⟩)
    ∧ (retryable e.kind = true →
      min (k + 2) MAX_RETRIES ≤ (forward_with_retry f).attempts
      ∧ (k + 1) * RETRY_INTERVAL ≤ (forward_with_retry f).sleeps) := by
  constructor
  · intro hterm
    obtain ⟨last2, hl⟩ := fwrLoop_skip f k MAX_RETRIES 0 0 none
      (fun j hj => by simpa using hprev j hj) (le_of_lt hk)
    unfold forward_with_retry
    rw [hl]
    obtain ⟨m, hm⟩ : ∃ m, MAX_RETRIES - k = m + 1 := ⟨MAX_RETRIES - k - 1, by omega⟩
    rw [hm]
    simp [fwrLoop, hke, hterm]
  · intro hret
    obtain ⟨last2, hl⟩ := fwrLoop_skip f (k + 1) MAX_RETRIES 0 0 none
      (fun j hj => by
        rcases Nat.lt_succ_iff_lt_or_eq.mp hj with h | h
        · simpa using hprev j h
        · subst h; exact ⟨e, by simpa using hke, hret⟩)
      (by omega)
    have hb := fwrLoop_bounds f (MAX_RETRIES - (k + 1)) (0 + (k + 1))
      (0 + (k + 1) * RETRY_INTERVAL) last2
    unfold forward_with_retry
    rw [hl]
    obtain ⟨h1, h2, h3⟩ := hb
    constructor
    · rcases Nat.lt_or_ge (k + 1) MAX_RETRIES with h | h
      · have h4 := h2 (by omega)
        omega
      · omega
    · omega

/-- C2 witness: two connection-refused failures followed by a terminal
exception end the run at attempt 3 with that exception, after two one-
second sleeps. -/
theorem c2_transport_failures_retried_others_terminal_witness :
    (retryable ErrKind.otherException = false →
      forward_with_retry
          (fun j => if j < 2 then .failure ⟨.connectionRefused, "connection refused"⟩
                    else .failure ⟨.otherException, "incomplete read"⟩)
        = ⟨.raised ⟨.otherException, "incomplete read"⟩, 2 + 1, 2 * RETRY_INTERVAL⟩)
    ∧ (retryable ErrKind.otherException = true →
      min (2 + 2) MAX_RETRIES ≤
        (forward_with_retry
          (fun j => if j < 2 then .failure ⟨.connectionRefused, "connection refused"⟩
                    else .failure ⟨.otherException, "incomplete read"⟩)).attempts
      ∧ (2 + 1) * RETRY_INTERVAL ≤
        (forward_with_retry
          (fun j => if j < 2 then .failure ⟨.connectionRefused, "connection refused"⟩
                    else .failure ⟨.otherException, "incomplete read"⟩)).sleeps) :=
  c2_transport_failures_retried_others_terminal
    (fun j => if j < 2 then .failure ⟨.connectionRefused, "connection refused"⟩
              else .failure ⟨.otherException, "incomplete read"⟩)
    2 ⟨.otherException, "incomplete read"⟩ (by decide)
    (fun j hj => ⟨⟨.connectionRefused, "connection refused"⟩, by simp [hj], rfl⟩)
    (by simp)

/-- C3: when every attempt fails with a retryable transport error, the
forwarding loop makes exactly `MAX_RETRIES = 30` attempts, and `do_POST`
then writes an HTTP 200 response carrying a JSON-RPC error envelope with
code `-32000`, the original request's id, and a message naming the
unreachable primary backend port. -/
theorem c3_exhausted_retries_error_envelope
    (platform : Platform) (env : WinEnv) (st : FocusState) (port : Nat)
    (f : Nat → AttemptOutcome) (req : ParsedRequest) (i : RpcId)
    (hfail : ∀ j, j < MAX_RETRIES → ∃ e, f j = .failure e ∧ retryable e.kind = true)
    (hroute : is_focus_action req = none)
    (hid : req.id = some i) :
    do_POST platform env st port f (some req)
      = (⟨200,
          .errorEnvelope (-32000)
            ("Unity not reachable on port " ++ toString port ++
             ". Is Unity running with Unixxty MCP active?"), i⟩,
         st, MAX_RETRIES) := by
  have hfwd : ∃ e2, forward_with_retry f
      = ⟨.raised e2, MAX_RETRIES, MAX_RETRIES * RETRY_INTERVAL⟩ := by
    obtain ⟨last2, hl⟩ := fwrLoop_skip f MAX_RETRIES MAX_RETRIES 0 0 none
      (fun j hj => by simpa using hfail j hj) le_rfl
    refine ⟨last2.getD maxRetriesError, ?_⟩
    unfold forward_with_retry
    rw [hl]
    simp [fwrLoop]
  obtain ⟨e2, hfwd⟩ := hfwd
  simp [do_POST, hroute, hfwd, hid]

/-- C3 witness: a concrete `tools/list` request against a backend refusing
every connection yields the -32000 envelope with the request's id after 30
attempts. -/
theorem c3_exhausted_retries_error_envelope_witness :
    do_POST .win32 ⟨7, 3, fun _ => true⟩
        { prevWindow := 0, autoFocus := false, settingsFile := none } 8081
        (fun _ => .failure ⟨.connectionRefused, "refused"⟩)
        (some { id := some (RpcId.n 42), method := some "tools/list" })
      = (⟨200,
          .errorEnvelope (-32000)
            ("Unity not reachable on port " ++ toString (8081 : Nat) ++
             ". Is Unity running with Unixxty MCP active?"), RpcId.n 42⟩,
         { prevWindow := 0, autoFocus := false, settingsFile := none }, MAX_RETRIES) :=
  c3_exhausted_retries_error_envelope .win32 ⟨7, 3, fun _ => true⟩
    { prevWindow := 0, autoFocus := false, settingsFile := none } 8081
    (fun _ => .failure ⟨.connectionRefused, "refused"⟩)
    { id := some (RpcId.n 42), method := some "tools/list" } (RpcId.n 42)
    (fun j _ => ⟨⟨.connectionRefused, "refused"⟩, rfl, rfl⟩)
    (by decide) rfl

theorem check_unity_health_noop (s : RegistryState) (now : Int) (reach : Nat → Bool)
    (h : now - s.last_unity_check < HEALTH_CHECK_INTERVAL) :
    check_unity_health s now reach = (s, s.unity_connected, 0) := by
  unfold check_unity_health
  rw [if_pos h]

theorem check_unity_health_active (s : RegistryState) (now : Int) (reach : Nat → Bool)
    (h : ¬ now - s.last_unity_check < HEALTH_CHECK_INTERVAL) :
    check_unity_health s now reach
      = ({ s with unity_connected := reach s.unity_port,
                  last_unity_check := now,
                  unity_instances := refreshInstances s reach },
         reach s.unity_port, numProbes s) := by
  unfold check_unity_health
  rw [if_neg h]

theorem effConnected_eq (s : RegistryState) (reach : Nat → Bool) (p : Nat) :
    effConnected s reach p = reach p := by
  unfold effConnected
  by_cases h : p = s.unity_port <;> simp [h]

theorem any_fst_beq (l : List (Nat × UnityInstance)) (p : Nat) :
    (l.any fun pi => pi.1 == p) = true ↔ p ∈ instKeys l := by
  simp only [List.any_eq_true, beq_iff_eq, instKeys, List.mem_map]

theorem portKept_true_iff (s : RegistryState) (reach : Nat → Bool) (p : Nat) :
    portKept s reach p = true
      ↔ (reach p = true ∨ p ∈ instKeys s.unity_instances) := by
  unfold portKept
  rw [Bool.or_eq_true, effConnected_eq, any_fst_beq]

theorem refreshBase_mem (s : RegistryState) (reach : Nat → Bool) (p : Nat)
    (inst : UnityInstance) :
    (p, inst) ∈ refreshBase s reach
      ↔ p ∈ DISCOVERY_PORTS ∧ portKept s reach p = true
        ∧ inst = UnityInstance.mk (effConnected s reach p) (labelFor p) := by
  unfold refreshBase
  simp only [List.mem_filterMap]
  constructor
  · rintro ⟨q, hql, hFq⟩
    by_cases hk : portKept s reach q = true
    · rw [if_pos hk] at hFq
      simp only [Option.some.injEq, Prod.mk.injEq] at hFq
      obtain ⟨rfl, rfl⟩ := hFq
      exact ⟨hql, hk, rfl⟩
    · rw [if_neg hk] at hFq
      exact absurd hFq (by simp)
  · rintro ⟨hpl, hk, rfl⟩
    exact ⟨p, hpl, by rw [if_pos hk]⟩

theorem refreshBase_keys (s : RegistryState) (reach : Nat → Bool) (p : Nat) :
    p ∈ instKeys (refreshBase s reach)
      ↔ p ∈ DISCOVERY_PORTS ∧ (reach p = true ∨ p ∈ instKeys s.unity_instances) := by
  rw [← portKept_true_iff]
  constructor
  · intro hp
    simp only [instKeys, List.mem_map] at hp
    obtain ⟨⟨q, inst⟩, hmem, hfst⟩ := hp
    cases hfst
    obtain ⟨h1, h2, _⟩ := (refreshBase_mem s reach q inst).mp hmem
    exact ⟨h1, h2⟩
  · rintro ⟨h1, h2⟩
    simp only [instKeys, List.mem_map]
    exact ⟨(p, UnityInstance.mk (effConnected s reach p) (labelFor p)),
           (refreshBase_mem s reach p _).mpr ⟨h1, h2, rfl⟩, rfl⟩

theorem refreshInstances_keys (s : RegistryState) (reach : Nat → Bool) (p : Nat) :
    p ∈ instKeys (refreshInstances s reach)
      ↔ ((p ∈ DISCOVERY_PORTS ∧ (reach p = true ∨ p ∈ instKeys s.unity_instances))
          ∨ p = s.unity_port) := by
  unfold refreshInstances
  by_cases hany : ((refreshBase s reach).any fun pi => pi.1 == s.unity_port) = true
  · rw [if_pos hany, refreshBase_keys]
    have hu := (any_fst_beq _ _).mp hany
    rw [refreshBase_keys] at hu
    constructor
    · exact Or.inl
    · rintro (hl | rfl)
      · exact hl
      · exact hu
  · rw [if_neg hany]
    simp only [instKeys, List.map_append, List.mem_append, List.map_cons, List.map_nil,
               List.mem_singleton]
    rw [show List.map Prod.fst (refreshBase s reach) = instKeys (refreshBase s reach) from rfl,
        refreshBase_keys]
    exact Iff.rfl

theorem mem_refreshInstances_of_base (s : RegistryState) (reach : Nat → Bool)
    (x : Nat × UnityInstance) (hx : x ∈ refreshBase s reach) :
    x ∈ refreshInstances s reach := by
  unfold refreshInstances
  split_ifs
  · exact hx
  · exact List.mem_append_left _ hx

theorem refreshInstances_labels (s : RegistryState) (reach : Nat → Bool) (p : Nat)
    (inst : UnityInstance) (hmem : (p, inst) ∈ refreshInstances s reach) :
    inst.label = labelFor p ∨ (p = s.unity_port ∧ inst.label = "Host") := by
  unfold refreshInstances at hmem
  split_ifs at hmem with hany
  · left
    obtain ⟨_, _, rfl⟩ := (refreshBase_mem s reach p inst).mp hmem
    rfl
  · rcases List.mem_append.mp hmem with hb | hs
    · left
      obtain ⟨_, _, rfl⟩ := (refreshBase_mem s reach p inst).mp hb
      rfl
    · right
      simp only [List.mem_singleton, Prod.mk.injEq] at hs
      obtain ⟨rfl, rfl⟩ := hs
      exact ⟨rfl, rfl⟩

/-- C1 counterexample: with primary 8081, port 8082 is reachable in the
cycle at t=10, then unreachable in the cycles at t=20 and t=30. The claim
says 8082 is absent after the second consecutive unreachable cycle (t=30);
the code still reports it (stale presence propagates through the
previous-cycle-membership test), refuting the claimed one-cycle grace
removal. -/
theorem c1_counterexample :
    (List.lookup 8082
        ((check_unity_health reg0 10 (fun p => p == 8081 || p == 8082)).1.unity_instances)
      = some ⟨true, "Clone 0"⟩)
    ∧ (List.lookup 8082
        ((check_unity_health
            (check_unity_health reg0 10 (fun p => p == 8081 || p == 8082)).1
            20 (fun p => p == 8081)).1.unity_instances)
      = some ⟨false, "Clone 0"⟩)
    ∧ (List.lookup 8082
        ((check_unity_health
            (check_unity_health
              (check_unity_health reg0 10 (fun p => p == 8081 || p == 8082)).1
              20 (fun p => p == 8081)).1
            30 (fun p => p == 8081)).1.unity_instances)
      = some ⟨false, "Clone 0"⟩) := by decide

/-- C1 (amended): after a probing cycle the membership is exactly the set
of discovery-range ports that are currently reachable or were present in
the previous cycle, plus the primary port; an instance that became
unreachable is still present with `connected = false` — but, contrary to
the original claim, it remains present in every further cycle while it
stays in the discovery range, because previous-cycle presence includes
stale entries; the primary port is never absent. -/
theorem c1_membership_amended (s : RegistryState) (now : Int) (reach : Nat → Bool) (p : Nat)
    (h : ¬ now - s.last_unity_check < HEALTH_CHECK_INTERVAL) :
    (p ∈ instKeys ((check_unity_health s now reach).1.unity_instances)
      ↔ ((p ∈ DISCOVERY_PORTS ∧ (reach p = true ∨ p ∈ instKeys s.unity_instances))
          ∨ p = s.unity_port))
    ∧ (p ∈ DISCOVERY_PORTS → p ∈ instKeys s.unity_instances → reach p = false →
        (p, UnityInstance.mk false (labelFor p))
          ∈ (check_unity_health s now reach).1.unity_instances)
    ∧ s.unity_port ∈ instKeys ((check_unity_health s now reach).1.unity_instances) := by
  simp only [check_unity_health_active s now reach h]
  refine ⟨refreshInstances_keys s reach p, ?_,
          (refreshInstances_keys s reach s.unity_port).mpr (Or.inr rfl)⟩
  intro hp hprev hre
  have hbase : (p, UnityInstance.mk (effConnected s reach p) (labelFor p))
      ∈ refreshBase s reach :=
    (refreshBase_mem s reach p _).mpr
      ⟨hp, (portKept_true_iff s reach p).mpr (Or.inr hprev), rfl⟩
  rw [effConnected_eq, hre] at hbase
  exact mem_refreshInstances_of_base s reach _ hbase

/-- C1 witness: the amended membership law at a registry that previously
held 8082 (now unreachable), probed at t=10 with only 8081 reachable. -/
theorem c1_membership_amended_witness :
    ((8082 : Nat) ∈ instKeys ((check_unity_health
          ⟨8081, true, 0, [(8082, UnityInstance.mk true "Clone 0")]⟩
          10 (fun p => p == 8081)).1.unity_instances)
      ↔ (((8082 : Nat) ∈ DISCOVERY_PORTS
          ∧ ((fun p : Nat => p == 8081) 8082 = true
             ∨ (8082 : Nat) ∈ instKeys [(8082, UnityInstance.mk true "Clone 0")]))
          ∨ (8082 : Nat) = 8081))
    ∧ ((8082 : Nat) ∈ DISCOVERY_PORTS
        → (8082 : Nat) ∈ instKeys [(8082, UnityInstance.mk true "Clone 0")]
        → (fun p : Nat => p == 8081) 8082 = false
        → ((8082 : Nat), UnityInstance.mk false (labelFor 8082))
            ∈ (check_unity_health
                ⟨8081, true, 0, [(8082, UnityInstance.mk true "Clone 0")]⟩
                10 (fun p => p == 8081)).1.unity_instances)
    ∧ (8081 : Nat) ∈ instKeys ((check_unity_health
          ⟨8081, true, 0, [(8082, UnityInstance.mk true "Clone 0")]⟩
          10 (fun p => p == 8081)).1.unity_instances) :=
  c1_membership_amended ⟨8081, true, 0, [(8082, UnityInstance.mk true "Clone 0")]⟩
    10 (fun p => p == 8081) 8082 (by decide)

/-- C5 counterexample: with the last probing refresh at t=0, a refresh at
t=4 is a rate-limited no-op, and a second refresh at t=8 — only 4 seconds
after the first, i.e. the pair is separated by less than the 5-second
minimum interval — nevertheless probes all 10 ports and changes the
membership, refuting the claim for pairs whose first member was itself
rate-limited. -/
theorem c5_counterexample :
    check_unity_health reg0 4 (fun _ => false) = (reg0, false, 0)
    ∧ ((8 : Int) - 4 < HEALTH_CHECK_INTERVAL)
    ∧ (check_unity_health (check_unity_health reg0 4 (fun _ => false)).1
        8 (fun _ => false)).2.2 = 10
    ∧ (check_unity_health (check_unity_health reg0 4 (fun _ => false)).1
        8 (fun _ => false)).1.unity_instances
      = [(8081, UnityInstance.mk false "Host")] := by decide

/-- C5 (amended): when a refresh actually probes, a further refresh within
the minimum interval (measured from that probing refresh, equivalently
from the first invocation of the pair whenever that invocation itself
probed) performs no probing and leaves the whole registry state — in
particular the membership — unchanged. -/
theorem c5_rate_limit_amended (s : RegistryState) (now1 now2 : Int)
    (reach1 reach2 : Nat → Bool)
    (h1 : ¬ now1 - s.last_unity_check < HEALTH_CHECK_INTERVAL)
    (h2 : now2 - now1 < HEALTH_CHECK_INTERVAL) :
    check_unity_health (check_unity_health s now1 reach1).1 now2 reach2
      = ((check_unity_health s now1 reach1).1,
         (check_unity_health s now1 reach1).1.unity_connected, 0) := by
  have hs1 : (check_unity_health s now1 reach1).1.last_unity_check = now1 := by
    simp [check_unity_health_active s now1 reach1 h1]
  exact check_unity_health_noop _ now2 reach2 (by rw [hs1]; exact h2)

/-- C5 witness: a probing refresh at t=10 followed by one at t=12 — the
second is a no-op returning the cached connectivity. -/
theorem c5_rate_limit_amended_witness :
    check_unity_health (check_unity_health reg0 10 (fun _ => true)).1 12 (fun _ => false)
      = ((check_unity_health reg0 10 (fun _ => true)).1,
         (check_unity_health reg0 10 (fun _ => true)).1.unity_connected, 0) :=
  c5_rate_limit_amended reg0 10 12 (fun _ => true) (fun _ => false)
    (by decide) (by decide)

/-- C7 counterexample: a probing cycle in which exactly 8081 and 8083 are
reachable yields labels `"Host"` and `"Clone 1"` — the second-lowest
present address is not labelled `"Clone 0"` as the claim requires. -/
theorem c7_counterexample :
    (check_unity_health reg0 10 (fun p => p == 8081 || p == 8083)).1.unity_instances
      = [(8081, UnityInstance.mk true "Host"), (8083, UnityInstance.mk true "Clone 1")]
    ∧ List.lookup 8083
        (check_unity_health reg0 10 (fun p => p == 8081 || p == 8083)).1.unity_instances
      ≠ some (UnityInstance.mk true "Clone 0") := by decide

/-- C7 (amended): labels are a fixed function of the absolute port, not of
the rank among present addresses: every post-cycle entry at port `p`
carries label `"Host"` when `p = 8081` and `"Clone (p - 8082)"` otherwise,
except that the primary port, when added by the fallback outside the
discovery loop, is labelled `"Host"`. -/
theorem c7_labels_amended (s : RegistryState) (now : Int) (reach : Nat → Bool)
    (p : Nat) (inst : UnityInstance)
    (h : ¬ now - s.last_unity_check < HEALTH_CHECK_INTERVAL)
    (hmem : (p, inst) ∈ (check_unity_health s now reach).1.unity_instances) :
    inst.label = labelFor p ∨ (p = s.unity_port ∧ inst.label = "Host") := by
  simp only [check_unity_health_active s now reach h] at hmem
  exact refreshInstances_labels s reach p inst hmem

/-- C7 witness: the amended label law at the entry for port 8083 of the
counterexample cycle (labelled `"Clone 1"`). -/
theorem c7_labels_amended_witness :
    (UnityInstance.mk true "Clone 1").label = labelFor 8083
    ∨ ((8083 : Nat) = reg0.unity_port ∧ (UnityInstance.mk true "Clone 1").label = "Host") :=
  c7_labels_amended reg0 10 (fun p => p == 8081 || p == 8083) 8083
    (UnityInstance.mk true "Clone 1") (by decide) (by decide)

theorem insertByKey_perm (x : Nat × UnityInstance) (l : List (Nat × UnityInstance)) :
    List.Perm (insertByKey x l) (x :: l) := by
  induction l with
  | nil => exact List.Perm.refl _
  | cons y ys ih =>
    unfold insertByKey
    by_cases hxy : x.1 ≤ y.1
    · rw [if_pos hxy]
    · rw [if_neg hxy]
      exact (List.Perm.cons y ih).trans (List.Perm.swap x y ys)

theorem sortByKey_perm (l : List (Nat × UnityInstance)) :
    List.Perm (sortByKey l) l := by
  induction l with
  | nil => exact List.Perm.refl _
  | cons x xs ih => exact (insertByKey_perm x (sortByKey xs)).trans (List.Perm.cons x ih)

theorem insertByKey_pairwise (x : Nat × UnityInstance) (l : List (Nat × UnityInstance))
    (h : l.Pairwise (fun a b => a.1 ≤ b.1)) :
    (insertByKey x l).Pairwise (fun a b => a.1 ≤ b.1) := by
  induction l with
  | nil => simp [insertByKey]
  | cons y ys ih =>
    obtain ⟨hy, hys⟩ := List.pairwise_cons.mp h
    unfold insertByKey
    by_cases hxy : x.1 ≤ y.1
    · rw [if_pos hxy]
      refine List.pairwise_cons.mpr ⟨?_, h⟩
      intro z hz
      rcases List.mem_cons.mp hz with rfl | hz2
      · exact hxy
      · exact le_trans hxy (hy z hz2)
    · rw [if_neg hxy]
      refine List.pairwise_cons.mpr ⟨?_, ih hys⟩
      intro z hz
      rcases List.mem_cons.mp ((insertByKey_perm x ys).mem_iff.mp hz) with rfl | hz3
      · omega
      · exact hy z hz3

theorem sortByKey_pairwise (l : List (Nat × UnityInstance)) :
    (sortByKey l).Pairwise (fun a b => a.1 ≤ b.1) := by
  induction l with
  | nil => simp [sortByKey]
  | cons x xs ih => exact insertByKey_pairwise x (sortByKey xs) ih

theorem snapshotInstances_unpack (l : List (Nat × UnityInstance)) :
    (snapshotInstances l).map (fun i => (i.port, UnityInstance.mk i.connected i.label))
      = sortByKey l := by
  unfold snapshotInstances
  rw [List.map_map]
  exact List.map_id _

/-- C8: a GET of `/status` refreshes the registry and answers 200 with a
document whose liveness marker is `"running"` (key `sidecar` in the code,
the spec's `gateway`), whose connectivity boolean, primary port and
preference equal the refreshed state's values, and whose instance list is
exactly the refreshed registry membership — each entry carrying its port,
connected flag and label — sorted ascending by port. -/
theorem c8_status_endpoint (s : RegistryState) (now : Int) (reach : Nat → Bool) (af : Bool) :
    (do_GET "/status" s now reach af).2 = (check_unity_health s now reach).1
    ∧ (do_GET "/status" s now reach af).1.1 = 200
    ∧ ∃ doc, (do_GET "/status" s now reach af).1.2 = some doc
        ∧ doc.sidecar = "running"
        ∧ doc.unity_connected = (check_unity_health s now reach).1.unity_connected
        ∧ doc.unity_port = (check_unity_health s now reach).1.unity_port
        ∧ doc.auto_focus = af
        ∧ List.Perm
            (doc.instances.map (fun i => (i.port, UnityInstance.mk i.connected i.label)))
            ((check_unity_health s now reach).1.unity_instances)
        ∧ (doc.instances.map StatusInstance.port).Pairwise (· ≤ ·) := by
  refine ⟨rfl, rfl, ⟨"running", (check_unity_health s now reach).1.unity_connected,
    (check_unity_health s now reach).1.unity_port, af,
    snapshotInstances (check_unity_health s now reach).1.unity_instances⟩,
    rfl, rfl, rfl, rfl, rfl, ?_, ?_⟩
  · rw [snapshotInstances_unpack]
    exact sortByKey_perm _
  · unfold snapshotInstances
    rw [List.map_map]
    exact List.pairwise_map.mpr (sortByKey_pairwise _)
